import Mathlib

/-!
# PyFluff protocol and session layer: a shallow embedding

This file embeds the protocol codec (`pyfluff/protocol.py`), the connection
session (`pyfluff/furby.py`) and the DLC file-transfer coordinator
(`pyfluff/dlc.py`) of the PyFluff repository as executable Lean definitions,
and proves the specified properties about them.

Bytes are modelled as `Nat` (every builder is shown to stay in range where this
matters); Python `bytes` values are `List Nat`; fallible operations return
`Except`; the asynchronous session operations are modelled as explicit
state-passing functions over a transcript of transport events.
-/

set_option linter.unusedVariables false

namespace PyFluff

/-! ## Protocol constants (`pyfluff/protocol.py`) -/

def MAX_PACKET_SIZE : Nat := 20

def FILE_CHUNK_SIZE : Nat := 20

namespace GeneralPlusCommand

def TRIGGER_SPECIFIC_ACTION : Nat := 0x13

def SET_ANTENNA_COLOR : Nat := 0x14

def SET_NAME : Nat := 0x21

def SET_MOODMETER : Nat := 0x23

def ANNOUNCE_DLC_UPLOAD : Nat := 0x50

def LOAD_DLC : Nat := 0x60

def ACTIVATE_DLC : Nat := 0x61

def DEACTIVATE_DLC : Nat := 0x62

def DELETE_DLC_SLOT : Nat := 0x74

def LCD_DEBUG_MENU : Nat := 0xDB

def LCD_BACKLIGHT : Nat := 0xCD

end GeneralPlusCommand

namespace GeneralPlusResponse

def FURBY_MESSAGE : Nat := 0x20

def SENSOR_STATUS : Nat := 0x21

def FILE_TRANSFER_MODE : Nat := 0x24

end GeneralPlusResponse

namespace NordicCommand

def PACKET_ACK : Nat := 0x09

end NordicCommand

/-- The `MoodMeterType` enum (`protocol.py`). -/
inductive MoodMeterType where
  | EXCITEDNESS
  | DISPLEASEDNESS
  | TIREDNESS
  | FULLNESS
  | WELLNESS
deriving DecidableEq, Repr

def MoodMeterType.value : MoodMeterType → Nat
  | .EXCITEDNESS => 0x00
  | .DISPLEASEDNESS => 0x01
  | .TIREDNESS => 0x02
  | .FULLNESS => 0x03
  | .WELLNESS => 0x04

/-- The `FurbyMessage` enum (`protocol.py`): the Furby status messages carried by
`0x20` responses. -/
inductive FurbyMessage where
  | ENTERED_NAMING_MODE
  | EXITED_NAMING_MODE
  | FURBY_NAMED
  | ENTERED_APP_MODE
  | EXITED_APP_MODE
  | RESPONSE_PLAYED
  | SPEECH_PLAYING
  | SLAVE_ACK
  | MASK_ADDED
  | MASK_REMOVED
  | SEQUENCE_PLAYING
  | SEQUENCE_CANCELLED
  | SEQUENCE_ENDED
  | INPUT_OUT_OF_RANGE
  | INDEX_OUT_OF_RANGE
  | SUBINDEX_OUT_OF_RANGE
  | SPECIFIC_OUT_OF_RANGE
  | SLEEP_MASK_ADDED
  | SLEEP_MASK_REMOVED
  | BODYCAM_ON
  | BODYCAM_OFF
  | LCD_ON
  | LCD_OFF
  | GROUP_NOT_ACTIVE
  | TIMED_GROUP_SET
  | CUSTOM_NOTIFICATION_SET
deriving DecidableEq, Repr

def FurbyMessage.value : FurbyMessage → Nat
  | .ENTERED_NAMING_MODE => 0x01
  | .EXITED_NAMING_MODE => 0x02
  | .FURBY_NAMED => 0x03
  | .ENTERED_APP_MODE => 0x04
  | .EXITED_APP_MODE => 0x05
  | .RESPONSE_PLAYED => 0x06
  | .SPEECH_PLAYING => 0x07
  | .SLAVE_ACK => 0x08
  | .MASK_ADDED => 0x0A
  | .MASK_REMOVED => 0x0B
  | .SEQUENCE_PLAYING => 0x0C
  | .SEQUENCE_CANCELLED => 0x0D
  | .SEQUENCE_ENDED => 0x0E
  | .INPUT_OUT_OF_RANGE => 0x0F
  | .INDEX_OUT_OF_RANGE => 0x10
  | .SUBINDEX_OUT_OF_RANGE => 0x11
  | .SPECIFIC_OUT_OF_RANGE => 0x12
  | .SLEEP_MASK_ADDED => 0x13
  | .SLEEP_MASK_REMOVED => 0x14
  | .BODYCAM_ON => 0x15
  | .BODYCAM_OFF => 0x16
  | .LCD_ON => 0x17
  | .LCD_OFF => 0x18
  | .GROUP_NOT_ACTIVE => 0x19
  | .TIMED_GROUP_SET => 0x1A
  | .CUSTOM_NOTIFICATION_SET => 0x1B

/-- Python `FurbyMessage(n)`: the enum constructor, which raises
`ValueError` for a value that is not in the enumeration; here it returns
`none` in that case (the `try/except` around every use maps `ValueError`
to `None`). -/
def furbyMessageOfNat (n : Nat) : Option FurbyMessage :=
  match n with
  | 0x01 => some .ENTERED_NAMING_MODE
  | 0x02 => some .EXITED_NAMING_MODE
  | 0x03 => some .FURBY_NAMED
  | 0x04 => some .ENTERED_APP_MODE
  | 0x05 => some .EXITED_APP_MODE
  | 0x06 => some .RESPONSE_PLAYED
  | 0x07 => some .SPEECH_PLAYING
  | 0x08 => some .SLAVE_ACK
  | 0x0A => some .MASK_ADDED
  | 0x0B => some .MASK_REMOVED
  | 0x0C => some .SEQUENCE_PLAYING
  | 0x0D => some .SEQUENCE_CANCELLED
  | 0x0E => some .SEQUENCE_ENDED
  | 0x0F => some .INPUT_OUT_OF_RANGE
  | 0x10 => some .INDEX_OUT_OF_RANGE
  | 0x11 => some .SUBINDEX_OUT_OF_RANGE
  | 0x12 => some .SPECIFIC_OUT_OF_RANGE
  | 0x13 => some .SLEEP_MASK_ADDED
  | 0x14 => some .SLEEP_MASK_REMOVED
  | 0x15 => some .BODYCAM_ON
  | 0x16 => some .BODYCAM_OFF
  | 0x17 => some .LCD_ON
  | 0x18 => some .LCD_OFF
  | 0x19 => some .GROUP_NOT_ACTIVE
  | 0x1A => some .TIMED_GROUP_SET
  | 0x1B => some .CUSTOM_NOTIFICATION_SET
  | _ => none

/-! ## Command builders (`FurbyProtocol`, `protocol.py` lines 163-253) -/

def build_antenna_command (red green blue : Nat) : List Nat :=
  [GeneralPlusCommand.SET_ANTENNA_COLOR, red, green, blue]

def build_action_command (input index subindex specific : Nat) : List Nat :=
  [GeneralPlusCommand.TRIGGER_SPECIFIC_ACTION, 0x00, input, index, subindex, specific]

def build_lcd_command (enabled : Bool) : List Nat :=
  [GeneralPlusCommand.LCD_BACKLIGHT, if enabled then 0x01 else 0x00]

def build_debug_menu_command : List Nat :=
  [GeneralPlusCommand.LCD_DEBUG_MENU]

def build_name_command (name_id : Nat) : List Nat :=
  [GeneralPlusCommand.SET_NAME, name_id]

def build_moodmeter_command (action : Nat) (mood_type : MoodMeterType) (value : Nat) :
    List Nat :=
  [GeneralPlusCommand.SET_MOODMETER, action, mood_type.value, value]

/-- Python `filename.encode("ascii")`: the code points of the string, which are the
ASCII bytes whenever every character is ASCII (the builders' contract). -/
def asciiEncode (s : String) : List Nat :=
  s.toList.map Char.toNat

/-- Python `.ljust(12, b"\x00")` on an at-most-12-byte string. -/
def ljustNull12 (l : List Nat) : List Nat :=
  l ++ List.replicate (12 - l.length) 0

/-- The builder `build_dlc_announce_command` (`protocol.py` lines 213-228): opcode, a
`0x00` byte, the 3-byte big-endian size, the slot byte, the 12-byte
null-padded filename, two trailing zero bytes. -/
def build_dlc_announce_command (size slot : Nat) (filename : String) : List Nat :=
  let size_bytes := [(size >>> 16) % 256, (size >>> 8) % 256, size % 256]
  let filename_bytes := ljustNull12 ((asciiEncode filename).take 12)
  [GeneralPlusCommand.ANNOUNCE_DLC_UPLOAD, 0x00] ++ size_bytes ++ [slot]
    ++ filename_bytes ++ [0x00, 0x00]

def build_load_dlc_command (slot : Nat) : List Nat :=
  [GeneralPlusCommand.LOAD_DLC, slot]

def build_activate_dlc_command : List Nat :=
  [GeneralPlusCommand.ACTIVATE_DLC]

def build_deactivate_dlc_command (slot : Nat) : List Nat :=
  [GeneralPlusCommand.DEACTIVATE_DLC, slot]

def build_delete_dlc_command (slot : Nat) : List Nat :=
  [GeneralPlusCommand.DELETE_DLC_SLOT, slot]

def build_nordic_packet_ack (enabled : Bool) : List Nat :=
  [NordicCommand.PACKET_ACK, if enabled then 0x01 else 0x00, 0x00]

/-! ## Parsers (`protocol.py` lines 255-275) -/

/-- The error raised by `parse_response` on a zero-length packet
(`ValueError("Empty response packet")`). -/
inductive ParseError where
  | EmptyPacket
deriving DecidableEq, Repr

/-- The parser `parse_response`: `(data[0], data[1:])`, raising on empty input. -/
def parse_response (data : List Nat) : Except ParseError (Nat × List Nat) :=
  match data with
  | [] => .error ParseError.EmptyPacket
  | b :: rest => .ok (b, rest)

/-- The predicate `is_furby_message`: `len(data) > 0 and data[0] == 0x20`. -/
def is_furby_message (data : List Nat) : Bool :=
  match data with
  | [] => false
  | b :: _ => b == GeneralPlusResponse.FURBY_MESSAGE

/-- The decoder `get_furby_message_type`: requires at least two bytes and a `0x20` opcode,
then decodes the second byte, with unknown sub-codes mapping to `none`. -/
def get_furby_message_type (data : List Nat) : Option FurbyMessage :=
  match data with
  | d0 :: d1 :: rest =>
    if is_furby_message (d0 :: d1 :: rest) then furbyMessageOfNat d1 else none
  | _ => none

/-! ## The layout the spec's table states for the DLC announce packet

For the refinement comparison of the announce builder only: the packet layout
as the specification's command table gives it (opcode, 3-byte big-endian size,
slot, 12-byte filename, two zero bytes, nothing else). -/

def dlc_announce_spec_layout (size slot : Nat) (filename : String) : List Nat :=
  [GeneralPlusCommand.ANNOUNCE_DLC_UPLOAD,
    (size >>> 16) % 256, (size >>> 8) % 256, size % 256, slot]
    ++ ljustNull12 ((asciiEncode filename).take 12) ++ [0x00, 0x00]

/-! ## Notification dispatch (`furby.py` lines 159-175)

`_gp_notification_handler` walks `self._gp_callbacks` with each inbound
packet; each callback call sits in a `try/except` that logs the exception and
continues with the next callback.  A callback is modelled as an identifier
plus a function that either returns or raises. -/

/-- A registered notification callback: an identity plus its behaviour on a
packet (`.error` models the callback raising). -/
structure Callback (ε : Type) where
  id : Nat
  run : List Nat → Except ε Unit

/-- What dispatch did: which callbacks were called (with which packet, in
order), and which exceptions were caught and logged. -/
structure DispatchLog (ε : Type) where
  invoked : List (Nat × List Nat)
  logged : List ε
deriving DecidableEq, Repr

/-- The handlers `_gp_notification_handler` and `_nordic_notification_handler`: the
`for callback in callbacks: try: callback(data) except: log` loop. -/
def gp_notification_handler {ε : Type} (callbacks : List (Callback ε)) (data : List Nat) :
    DispatchLog ε :=
  callbacks.foldl
    (fun log cb =>
      match cb.run data with
      | .ok _ => { invoked := log.invoked ++ [(cb.id, data)], logged := log.logged }
      | .error e => { invoked := log.invoked ++ [(cb.id, data)], logged := log.logged ++ [e] })
    { invoked := [], logged := [] }

/-! ## Connection session (`furby.py` lines 28-131)

The `FurbyConnect` object state, with `connect`/`disconnect` embedded as state
transformers over an explicit BLE environment.  The environment records what
discovery would return and whether each transport connect attempt would
succeed, so the model is a function of the transcript rather than of real
radio traffic. -/

structure BLEDevice where
  address : String
deriving DecidableEq, Repr

/-- The mutable state of a `FurbyConnect` instance: `self.device`,
`self.client` (a fresh `BleakClient` handle id, `none` before one is built),
the client's own `is_connected` flag, `self._connected`, and whether the idle
keepalive task is running. -/
structure FurbyState where
  device : Option BLEDevice
  client : Option Nat
  clientConnected : Bool
  connectedFlag : Bool
  idleRunning : Bool
deriving DecidableEq, Repr

/-- The constructor `FurbyConnect.__init__(device)`. -/
def FurbyConnect.init (device : Option BLEDevice) : FurbyState :=
  { device := device, client := none, clientConnected := false,
    connectedFlag := false, idleRunning := false }

/-- The `connected` property:
`self._connected and self.client is not None and self.client.is_connected`. -/
def FurbyConnect.isConnected (s : FurbyState) : Bool :=
  s.connectedFlag && s.client.isSome && s.clientConnected

/-- The BLE world the session runs against: what a scan would discover
(already filtered to Furby names, as `discover` does), whether the n-th
transport connect attempt would succeed, and the id of the next fresh client
handle. -/
structure BLEEnv where
  discovered : List BLEDevice
  connectSucceeds : Nat → Bool
  nextHandle : Nat

/-- What one `connect()` call did. -/
structure ConnectResult where
  state : FurbyState
  transportAttempts : Nat
  outcome : Except String Unit

/-- The operation `FurbyConnect.connect` (`furby.py` lines 72-114): early return when
`self._connected`; discover and take the first device when none was given
(raising when discovery is empty); build a fresh client; one transport
connect attempt — on success set the connected flag, subscribe and start the
idle task, on failure clear the flag and re-raise as `RuntimeError`. -/
def FurbyConnect.connect (env : BLEEnv) (s : FurbyState) : ConnectResult :=
  if s.connectedFlag then
    { state := s, transportAttempts := 0, outcome := .ok () }
  else
    match (match s.device with | some d => some d | none => env.discovered.head?) with
    | none =>
      { state := s, transportAttempts := 0, outcome := .error "No Furby devices found" }
    | some d =>
      let s1 : FurbyState :=
        { s with device := some d, client := some env.nextHandle, clientConnected := false }
      if env.connectSucceeds 0 then
        { state :=
            { s1 with clientConnected := true, connectedFlag := true, idleRunning := true },
          transportAttempts := 1, outcome := .ok () }
      else
        { state := { s1 with connectedFlag := false },
          transportAttempts := 1, outcome := .error "Failed to connect to Furby" }

/-- The operation `FurbyConnect.disconnect` (`furby.py` lines 116-131): return at once when
no client was ever built; otherwise stop the idle task, close the transport
when it is still open, and clear the connected flag.  It raises nothing. -/
def FurbyConnect.disconnect (s : FurbyState) : FurbyState :=
  match s.client with
  | none => s
  | some _ =>
    let s1 := { s with idleRunning := false }
    let s2 := if s1.clientConnected then { s1 with clientConnected := false } else s1
    { s2 with connectedFlag := false }

/-- Keyword parameters accepted by `FurbyConnect.connect` as implemented
(`furby.py` line 72: `async def connect(self, timeout: float = 10.0)`). -/
def connect_keyword_params : List String := ["timeout"]

/-- Keyword arguments the CLI passes to it (`cli.py` line 80:
`await furby.connect(address=address, timeout=timeout, retries=retries)`);
the server (`server.py` line 248) and the bundled examples pass the same
three. -/
def cli_connect_call_keywords : List String := ["address", "timeout", "retries"]

/-! ## `set_name` (`furby.py` lines 304-315)

`set_name` writes the name command and then calls `trigger_action(0x21, 0, 0,
name_id)`, which writes the action command; the model records the sequence of
packets written to the GeneralPlus characteristic. -/

def trigger_action_writes (input index subindex specific : Nat) : List (List Nat) :=
  [build_action_command input index subindex specific]

def set_name_writes (name_id : Nat) : List (List Nat) :=
  [build_name_command name_id] ++ trigger_action_writes 0x21 0 0 name_id

/-! ## Sensor stream (`furby.py` lines 384-406)

`sensor_stream` registers a temporary GeneralPlus callback that enqueues
exactly the packets whose first byte is the sensor-status opcode, yields one
`SensorData` per queued packet (in FIFO order, `raw_data` being the packet's
hex string), and unregisters the callback when the consumer stops
iterating. -/

/-- The filter inside `sensor_callback`:
`len(data) > 0 and data[0] == GeneralPlusResponse.SENSOR_STATUS.value`. -/
def sensor_callback_selects (data : List Nat) : Bool :=
  match data with
  | [] => false
  | d0 :: _ => d0 == GeneralPlusResponse.SENSOR_STATUS

def hexDigitChar (n : Nat) : Char :=
  if n < 10 then Char.ofNat (48 + n) else Char.ofNat (87 + n)

/-- Python `bytes.hex()`: two lowercase hex digits per byte. -/
def bytesHex (l : List Nat) : String :=
  String.mk ((l.map (fun b => [hexDigitChar (b / 16), hexDigitChar (b % 16)])).flatten)

/-- What one `sensor_stream` run produced: the `raw_data` of the yielded
`SensorData` items, and the GeneralPlus callback registry after the stream's
`finally` block removed the temporary callback. -/
structure SensorStreamRun where
  items : List String
  finalCallbacks : List Nat
deriving DecidableEq, Repr

/-- The generator `sensor_stream` over a transcript: register the temporary callback (by a
fresh id), deliver `packets` to it, yield one item per enqueued packet, then
remove the callback in the `finally` block. -/
def sensor_stream_run (callbacks : List Nat) (cbId : Nat) (packets : List (List Nat)) :
    SensorStreamRun :=
  let registered := callbacks ++ [cbId]
  let queue := packets.foldl (fun q p => if sensor_callback_selects p then q ++ [p] else q) []
  { items := queue.map bytesHex, finalCallbacks := registered.erase cbId }

/-! ## DLC file transfer (`dlc.py`) -/

/-- The `DLCManager` transfer latches: `self._transfer_ready`,
`self._transfer_complete` (asyncio events) and `self._transfer_error`. -/
structure TransferState where
  ready : Bool
  complete : Bool
  error : Option String
deriving DecidableEq, Repr

/-- The callback `_file_transfer_callback` (`dlc.py` lines 33-54): ignore packets shorter
than two bytes or with an opcode other than `0x24`; `READY_TO_RECEIVE (0x02)`
sets the ready latch, `FILE_RECEIVED_OK (0x05)` completes, `FILE_RECEIVED_ERROR
(0x06)` and `FILE_TRANSFER_TIMEOUT (0x03)` record an error and complete; every
other sub-code (including the unknown ones that raise `ValueError` in the
enum constructor) only logs. -/
def file_transfer_callback (st : TransferState) (data : List Nat) : TransferState :=
  match data with
  | d0 :: d1 :: _ =>
    if d0 ≠ GeneralPlusResponse.FILE_TRANSFER_MODE then st
    else if d1 = 0x02 then { st with ready := true }
    else if d1 = 0x05 then { st with complete := true }
    else if d1 = 0x06 then { st with error := some "File transfer failed", complete := true }
    else if d1 = 0x03 then { st with error := some "File transfer timeout", complete := true }
    else st
  | _ => st

/-- The chunking loop of `upload_dlc` (`dlc.py` lines 107-111): successive
`FILE_CHUNK_SIZE`-byte slices of the file. -/
def file_chunks (data : List Nat) : List (List Nat) :=
  if h : data = [] then []
  else data.take FILE_CHUNK_SIZE :: file_chunks (data.drop FILE_CHUNK_SIZE)
termination_by data.length
decreasing_by
  simp only [List.length_drop, FILE_CHUNK_SIZE]
  have : data.length ≠ 0 := fun hh => h (List.length_eq_zero.mp hh)
  omega

/-- What one `upload_dlc` call did: packets written to the GeneralPlus
characteristic, packets written to the File characteristic, the outcome
(`.error` carries the `RuntimeError` message), and the GeneralPlus callback
registry after the `finally` block. -/
structure UploadRun where
  gpWrites : List (List Nat)
  fileWrites : List (List Nat)
  outcome : Except String Unit
  finalCallbacks : List Nat

/-- The coordinator `upload_dlc` (`dlc.py` lines 56-140) over a transcript: the latches are
cleared, the transfer callback is registered, the announce packet is written;
`notifsAfterAnnounce` are the notifications delivered while waiting on the
ready latch (not seeing it set is the 10s `wait_for` timeout), then the file
goes out in 20-byte chunks, `notifsAfterChunks` are the notifications
delivered while waiting on the complete latch; a recorded transfer error is
re-raised as `RuntimeError`; the `finally` block always removes the transfer
callback from the registry. -/
def upload_dlc (dlc_data : List Nat) (slot : Nat) (filename : String)
    (notifsAfterAnnounce notifsAfterChunks : List (List Nat))
    (callbacks : List Nat) (transferCbId : Nat) : UploadRun :=
  let registered := callbacks ++ [transferCbId]
  let finalCbs := registered.erase transferCbId
  let announce := build_dlc_announce_command dlc_data.length slot filename
  let st1 := notifsAfterAnnounce.foldl file_transfer_callback
    { ready := false, complete := false, error := none }
  if st1.ready = false then
    { gpWrites := [announce], fileWrites := [],
      outcome := .error "Furby did not respond to DLC upload announcement",
      finalCallbacks := finalCbs }
  else
    let chunks := file_chunks dlc_data
    let st2 := notifsAfterChunks.foldl file_transfer_callback st1
    if st2.complete = false then
      { gpWrites := [announce], fileWrites := chunks,
        outcome := .error "Timeout waiting for upload confirmation",
        finalCallbacks := finalCbs }
    else
      match st2.error with
      | some e =>
        { gpWrites := [announce], fileWrites := chunks, outcome := .error e,
          finalCallbacks := finalCbs }
      | none =>
        { gpWrites := [announce], fileWrites := chunks, outcome := .ok (),
          finalCallbacks := finalCbs }

/-! ## Helper lemmas -/

theorem furbyMessageOfNat_value (b : Nat) (m : FurbyMessage)
    (h : furbyMessageOfNat b = some m) : m.value = b := by
  unfold furbyMessageOfNat at h
  split at h <;> cases h <;> rfl

theorem take12_length_le (l : List Nat) : (l.take 12).length ≤ 12 := by
  rw [List.length_take]
  exact min_le_left _ _

theorem ljustNull12_length (l : List Nat) (h : l.length ≤ 12) :
    (ljustNull12 l).length = 12 := by
  simp only [ljustNull12, List.length_append, List.length_replicate]
  omega

theorem build_dlc_announce_length (size slot : Nat) (filename : String) :
    (build_dlc_announce_command size slot filename).length = 20 := by
  have h := ljustNull12_length ((asciiEncode filename).take 12)
    (take12_length_le (asciiEncode filename))
  simp [build_dlc_announce_command, List.length_append, h]

/-! ## Claim theorems for the protocol codec -/

/-- C5: the packet parser fails with the `EmptyPacket` error exactly when its
input has zero length; on every non-empty input it returns the first byte as
the opcode and the remaining bytes as the payload; in particular
`parse([0x20,0x06,0x01,0x02]) = (0x20, [0x06,0x01,0x02])`. -/
theorem C5_parse_response (data : List Nat) :
    (parse_response data = .error ParseError.EmptyPacket ↔ data = [])
    ∧ (∀ b : Nat, ∀ rest : List Nat, parse_response (b :: rest) = .ok (b, rest))
    ∧ parse_response [0x20, 0x06, 0x01, 0x02] = .ok (0x20, [0x06, 0x01, 0x02]) := by
  refine ⟨?_, fun b rest => rfl, rfl⟩
  cases data <;> simp [parse_response]

/-- C6: the status-message decoder is total: on a `0x20` packet with any
sub-code byte it returns either an enumerated status code (whose protocol
value is that byte) or `none` (the unrecognized outcome) and never fails;
sub-code `0x06` decodes to `RESPONSE_PLAYED` and the unknown sub-code `0xFF`
decodes to `none`. -/
theorem C6_status_decoder_total (b : Nat) :
    (get_furby_message_type [0x20, b] = none
      ∨ ∃ m : FurbyMessage, get_furby_message_type [0x20, b] = some m ∧ m.value = b)
    ∧ get_furby_message_type [0x20, 0x06] = some FurbyMessage.RESPONSE_PLAYED
    ∧ get_furby_message_type [0x20, 0xFF] = none := by
  refine ⟨?_, rfl, rfl⟩
  have hg : get_furby_message_type [0x20, b] = furbyMessageOfNat b := rfl
  cases hm : furbyMessageOfNat b with
  | none => exact Or.inl (hg.trans hm)
  | some m => exact Or.inr ⟨m, hg.trans hm, furbyMessageOfNat_value b m hm⟩

/-- C10: the session-level set-name operation writes two packets on the
primary channel in order: the name command `[0x21, name_id]` followed by the
trigger-action command `[0x13, 0x00, 0x21, 0x00, 0x00, name_id]`, and not
just the single packet the set-name builder produces. -/
theorem C10_set_name_two_packets (name_id : Nat) :
    set_name_writes name_id
        = [[0x21, name_id], [0x13, 0x00, 0x21, 0x00, 0x00, name_id]]
    ∧ set_name_writes name_id ≠ [build_name_command name_id] := by
  refine ⟨rfl, fun h => ?_⟩
  have hlen := congrArg List.length h
  simp [set_name_writes, trigger_action_writes] at hlen

/-- C2 counterexample: at size `12345`, slot `2`, filename `"TEST.DLC"` the
announce builder's output differs from the layout the claim states (opcode
directly followed by the 3-byte big-endian size): the builder inserts a
reserved `0x00` byte between the opcode and the size field. -/
theorem C2_announce_layout_counterexample :
    build_dlc_announce_command 12345 2 "TEST.DLC"
      ≠ dlc_announce_spec_layout 12345 2 "TEST.DLC" := by
  decide

/-- C2 (amended): the announce builder returns exactly the opcode `0x50`, a
reserved `0x00` byte, the 3-byte big-endian size (three bytes whose
big-endian value is the size), the slot byte, the 12-byte null-padded ASCII
filename, and 2 trailing zero bytes — 20 bytes in total. -/
theorem C2_announce_layout (size slot : Nat) (filename : String)
    (hsize : size < 2 ^ 24) :
    ∃ s0 s1 s2 : Nat,
      build_dlc_announce_command size slot filename
          = [0x50, 0x00, s0, s1, s2, slot]
            ++ ljustNull12 ((asciiEncode filename).take 12) ++ [0x00, 0x00]
        ∧ 65536 * s0 + 256 * s1 + s2 = size
        ∧ s0 < 256 ∧ s1 < 256 ∧ s2 < 256
        ∧ (ljustNull12 ((asciiEncode filename).take 12)).length = 12
        ∧ (build_dlc_announce_command size slot filename).length = 20 := by
  refine ⟨(size >>> 16) % 256, (size >>> 8) % 256, size % 256, ?_, ?_,
    Nat.mod_lt _ (by norm_num), Nat.mod_lt _ (by norm_num), Nat.mod_lt _ (by norm_num),
    ljustNull12_length _ (take12_length_le _), build_dlc_announce_length size slot filename⟩
  · simp [build_dlc_announce_command, GeneralPlusCommand.ANNOUNCE_DLC_UPLOAD]
  · have h16 : size >>> 16 = size / 65536 := by
      rw [Nat.shiftRight_eq_div_pow]
    have h8 : size >>> 8 = size / 256 := by
      rw [Nat.shiftRight_eq_div_pow]
    rw [h16, h8]
    omega

/-- C2 witness: the amended layout at size `12345`, slot `2`, filename
`"TEST.DLC"`. -/
theorem C2_announce_layout_witness :
    12345 < 2 ^ 24
    ∧ ∃ s0 s1 s2 : Nat,
        build_dlc_announce_command 12345 2 "TEST.DLC"
            = [0x50, 0x00, s0, s1, s2, 2]
              ++ ljustNull12 ((asciiEncode "TEST.DLC").take 12) ++ [0x00, 0x00]
          ∧ 65536 * s0 + 256 * s1 + s2 = 12345
          ∧ s0 < 256 ∧ s1 < 256 ∧ s2 < 256
          ∧ (ljustNull12 ((asciiEncode "TEST.DLC").take 12)).length = 12
          ∧ (build_dlc_announce_command 12345 2 "TEST.DLC").length = 20 :=
  ⟨by norm_num, C2_announce_layout 12345 2 "TEST.DLC" (by norm_num)⟩

/-- C4: for every command builder and in-range input, the first byte of the
built packet is the documented opcode (0x13 action, 0x14 antenna, 0x21 name,
0x23 mood, 0x50 announce, 0x60 load, 0x61 activate, 0x62 deactivate, 0x74
delete, 0xDB debug-menu, 0xCD backlight, 0x09 secondary packet-ack) and the
packet is no longer than the 20-byte transport MTU. -/
theorem C4_opcode_and_mtu
    (red green blue input index subindex specific name_id action value size slot : Nat)
    (mood : MoodMeterType) (filename : String) (lcdOn ackOn : Bool)
    (hred : red < 256) (hgreen : green < 256) (hblue : blue < 256)
    (hinput : input < 256) (hindex : index < 256) (hsub : subindex < 256)
    (hspec : specific < 256) (hname : name_id ≤ 128) (haction : action ≤ 1)
    (hvalue : value < 256) (hsize : size < 2 ^ 24) (hslot : slot < 256)
    (hascii : ∀ c ∈ filename.toList, c.toNat < 128) :
    ((build_action_command input index subindex specific).headD 0 = 0x13
      ∧ (build_action_command input index subindex specific).length ≤ MAX_PACKET_SIZE)
    ∧ ((build_antenna_command red green blue).headD 0 = 0x14
      ∧ (build_antenna_command red green blue).length ≤ MAX_PACKET_SIZE)
    ∧ ((build_name_command name_id).headD 0 = 0x21
      ∧ (build_name_command name_id).length ≤ MAX_PACKET_SIZE)
    ∧ ((build_moodmeter_command action mood value).headD 0 = 0x23
      ∧ (build_moodmeter_command action mood value).length ≤ MAX_PACKET_SIZE)
    ∧ ((build_dlc_announce_command size slot filename).headD 0 = 0x50
      ∧ (build_dlc_announce_command size slot filename).length ≤ MAX_PACKET_SIZE)
    ∧ ((build_load_dlc_command slot).headD 0 = 0x60
      ∧ (build_load_dlc_command slot).length ≤ MAX_PACKET_SIZE)
    ∧ (build_activate_dlc_command.headD 0 = 0x61
      ∧ build_activate_dlc_command.length ≤ MAX_PACKET_SIZE)
    ∧ ((build_deactivate_dlc_command slot).headD 0 = 0x62
      ∧ (build_deactivate_dlc_command slot).length ≤ MAX_PACKET_SIZE)
    ∧ ((build_delete_dlc_command slot).headD 0 = 0x74
      ∧ (build_delete_dlc_command slot).length ≤ MAX_PACKET_SIZE)
    ∧ (build_debug_menu_command.headD 0 = 0xDB
      ∧ build_debug_menu_command.length ≤ MAX_PACKET_SIZE)
    ∧ ((build_lcd_command lcdOn).headD 0 = 0xCD
      ∧ (build_lcd_command lcdOn).length ≤ MAX_PACKET_SIZE)
    ∧ ((build_nordic_packet_ack ackOn).headD 0 = 0x09
      ∧ (build_nordic_packet_ack ackOn).length ≤ MAX_PACKET_SIZE) := by
  refine ⟨⟨rfl, by simp [build_action_command, MAX_PACKET_SIZE]⟩,
    ⟨rfl, by simp [build_antenna_command, MAX_PACKET_SIZE]⟩,
    ⟨rfl, by simp [build_name_command, MAX_PACKET_SIZE]⟩,
    ⟨rfl, by simp [build_moodmeter_command, MAX_PACKET_SIZE]⟩,
    ⟨rfl, ?_⟩,
    ⟨rfl, by simp [build_load_dlc_command, MAX_PACKET_SIZE]⟩,
    ⟨rfl, by simp [build_activate_dlc_command, MAX_PACKET_SIZE]⟩,
    ⟨rfl, by simp [build_deactivate_dlc_command, MAX_PACKET_SIZE]⟩,
    ⟨rfl, by simp [build_delete_dlc_command, MAX_PACKET_SIZE]⟩,
    ⟨rfl, by simp [build_debug_menu_command, MAX_PACKET_SIZE]⟩,
    ⟨rfl, by simp [build_lcd_command, MAX_PACKET_SIZE]⟩,
    ⟨rfl, by simp [build_nordic_packet_ack, MAX_PACKET_SIZE]⟩⟩
  rw [build_dlc_announce_length size slot filename]
  simp [MAX_PACKET_SIZE]

/-- C4 witness: the opcode and MTU facts at a concrete in-range input for
every builder. -/
theorem C4_opcode_and_mtu_witness :
    ((build_action_command 55 2 14 0).headD 0 = 0x13
      ∧ (build_action_command 55 2 14 0).length ≤ MAX_PACKET_SIZE)
    ∧ ((build_antenna_command 255 128 0).headD 0 = 0x14
      ∧ (build_antenna_command 255 128 0).length ≤ MAX_PACKET_SIZE)
    ∧ ((build_name_command 42).headD 0 = 0x21
      ∧ (build_name_command 42).length ≤ MAX_PACKET_SIZE)
    ∧ ((build_moodmeter_command 1 MoodMeterType.FULLNESS 75).headD 0 = 0x23
      ∧ (build_moodmeter_command 1 MoodMeterType.FULLNESS 75).length ≤ MAX_PACKET_SIZE)
    ∧ ((build_dlc_announce_command 12345 2 "TEST.DLC").headD 0 = 0x50
      ∧ (build_dlc_announce_command 12345 2 "TEST.DLC").length ≤ MAX_PACKET_SIZE)
    ∧ ((build_load_dlc_command 2).headD 0 = 0x60
      ∧ (build_load_dlc_command 2).length ≤ MAX_PACKET_SIZE)
    ∧ (build_activate_dlc_command.headD 0 = 0x61
      ∧ build_activate_dlc_command.length ≤ MAX_PACKET_SIZE)
    ∧ ((build_deactivate_dlc_command 2).headD 0 = 0x62
      ∧ (build_deactivate_dlc_command 2).length ≤ MAX_PACKET_SIZE)
    ∧ ((build_delete_dlc_command 2).headD 0 = 0x74
      ∧ (build_delete_dlc_command 2).length ≤ MAX_PACKET_SIZE)
    ∧ (build_debug_menu_command.headD 0 = 0xDB
      ∧ build_debug_menu_command.length ≤ MAX_PACKET_SIZE)
    ∧ ((build_lcd_command true).headD 0 = 0xCD
      ∧ (build_lcd_command true).length ≤ MAX_PACKET_SIZE)
    ∧ ((build_nordic_packet_ack true).headD 0 = 0x09
      ∧ (build_nordic_packet_ack true).length ≤ MAX_PACKET_SIZE) :=
  C4_opcode_and_mtu 255 128 0 55 2 14 0 42 1 75 12345 2
    MoodMeterType.FULLNESS "TEST.DLC" true true
    (by norm_num) (by norm_num) (by norm_num) (by norm_num) (by norm_num) (by norm_num)
    (by norm_num) (by norm_num) (by norm_num) (by norm_num) (by norm_num) (by norm_num)
    (by decide)

/-! ## Session-layer helper lemmas -/

theorem erase_fresh_callback (callbacks : List Nat) (cbId : Nat) (h : cbId ∉ callbacks) :
    (callbacks ++ [cbId]).erase cbId = callbacks := by
  rw [List.erase_append_right _ h]
  simp

theorem gp_dispatch_foldl {ε : Type} (data : List Nat) (callbacks : List (Callback ε)) :
    ∀ acc : DispatchLog ε,
      callbacks.foldl
        (fun log cb =>
          match cb.run data with
          | .ok _ => { invoked := log.invoked ++ [(cb.id, data)], logged := log.logged }
          | .error e =>
            { invoked := log.invoked ++ [(cb.id, data)], logged := log.logged ++ [e] })
        acc
      = { invoked := acc.invoked ++ callbacks.map (fun cb => (cb.id, data)),
          logged := acc.logged ++ callbacks.filterMap
            (fun cb => match cb.run data with | .ok _ => none | .error e => some e) } := by
  induction callbacks with
  | nil => intro acc; simp
  | cons cb rest ih =>
    intro acc
    cases hcb : cb.run data with
    | ok u =>
      cases u
      simp only [List.foldl_cons, List.map_cons, List.filterMap_cons, hcb, ih]
      simp
    | error e =>
      simp only [List.foldl_cons, List.map_cons, List.filterMap_cons, hcb, ih]
      simp

theorem sensor_queue_foldl (packets : List (List Nat)) :
    ∀ q : List (List Nat),
      packets.foldl (fun q p => if sensor_callback_selects p then q ++ [p] else q) q
        = q ++ packets.filter sensor_callback_selects := by
  induction packets with
  | nil => intro q; simp
  | cons p rest ih =>
    intro q
    by_cases hp : sensor_callback_selects p <;>
      simp [List.foldl_cons, List.filter_cons, hp, ih]

/-! ## Claim theorems for the session layer -/

/-- C8: dispatching an inbound packet invokes the registered callbacks for
that channel in registration order, every one of them with the same packet —
a callback that raises has its exception caught and logged, and every later
callback is still invoked. -/
theorem C8_dispatch_isolation {ε : Type} (callbacks : List (Callback ε)) (data : List Nat) :
    (gp_notification_handler callbacks data).invoked
        = callbacks.map (fun cb => (cb.id, data))
    ∧ (gp_notification_handler callbacks data).logged
        = callbacks.filterMap
            (fun cb => match cb.run data with | .ok _ => none | .error e => some e) := by
  unfold gp_notification_handler
  rw [gp_dispatch_foldl]
  simp

/-- C9: the sensor stream yields exactly one item, in delivery order, for
every delivered packet whose first byte is the sensor-status opcode `0x21`
(each carrying that packet's data as its hex string), packets with any other
first byte or no bytes yield nothing, and the temporary forwarding callback
is unregistered once the consumer stops iterating. -/
theorem C9_sensor_stream (callbacks : List Nat) (cbId : Nat)
    (packets : List (List Nat)) (hfresh : cbId ∉ callbacks) :
    (sensor_stream_run callbacks cbId packets).items
        = (packets.filter sensor_callback_selects).map bytesHex
    ∧ (∀ p : List Nat,
        sensor_callback_selects p = true ↔ ∃ rest : List Nat, p = 0x21 :: rest)
    ∧ (sensor_stream_run callbacks cbId packets).finalCallbacks = callbacks := by
  refine ⟨?_, ?_, ?_⟩
  · unfold sensor_stream_run
    rw [sensor_queue_foldl]
    simp
  · intro p
    cases p with
    | nil => simp [sensor_callback_selects]
    | cons b rest =>
      simp [sensor_callback_selects, GeneralPlusResponse.SENSOR_STATUS]
  · unfold sensor_stream_run
    exact erase_fresh_callback callbacks cbId hfresh

/-- C9 witness: a fresh callback over three delivered packets — two sensor
packets yield two items in order, the non-sensor packet yields none, and the
callback registry is restored. -/
theorem C9_sensor_stream_witness :
    (0 : Nat) ∉ ([] : List Nat)
    ∧ ((sensor_stream_run [] 0 [[0x21, 0x05], [0x20, 0x06], [], [0x21]]).items
        = (([[0x21, 0x05], [0x20, 0x06], [], [0x21]] : List (List Nat)).filter
            sensor_callback_selects).map bytesHex
    ∧ (∀ p : List Nat,
        sensor_callback_selects p = true ↔ ∃ rest : List Nat, p = 0x21 :: rest)
    ∧ (sensor_stream_run [] 0 [[0x21, 0x05], [0x20, 0x06], [], [0x21]]).finalCallbacks
        = []) :=
  ⟨by simp, C9_sensor_stream [] 0 [[0x21, 0x05], [0x20, 0x06], [], [0x21]] (by simp)⟩

theorem connect_already_connected (env : BLEEnv) (s : FurbyState)
    (h : s.connectedFlag = true) :
    FurbyConnect.connect env s
      = { state := s, transportAttempts := 0, outcome := .ok () } := by
  unfold FurbyConnect.connect
  simp [h]

/-- C7: after a successful `connect`, calling `connect` again without an
intervening `disconnect` is a no-op — no transport attempt, success reported,
state (and with it the single live transport handle) unchanged — while the
first call left exactly one live client handle; and `disconnect` on a session
that never connected raises nothing and leaves the state disconnected. -/
theorem C7_lifecycle_idempotent (env env2 : BLEEnv) (dev : Option BLEDevice)
    (hok : (FurbyConnect.connect env (FurbyConnect.init dev)).outcome = .ok ()) :
    FurbyConnect.connect env2 (FurbyConnect.connect env (FurbyConnect.init dev)).state
        = { state := (FurbyConnect.connect env (FurbyConnect.init dev)).state,
            transportAttempts := 0, outcome := .ok () }
    ∧ (FurbyConnect.connect env (FurbyConnect.init dev)).state.client = some env.nextHandle
    ∧ (∀ d : Option BLEDevice,
        FurbyConnect.disconnect (FurbyConnect.init d) = FurbyConnect.init d
          ∧ FurbyConnect.isConnected (FurbyConnect.init d) = false) := by
  have hchar :
      (FurbyConnect.connect env (FurbyConnect.init dev)).state.connectedFlag = true
      ∧ (FurbyConnect.connect env (FurbyConnect.init dev)).state.client
          = some env.nextHandle := by
    cases dev with
    | some d =>
      by_cases hcs : env.connectSucceeds 0
      · simp [FurbyConnect.connect, FurbyConnect.init, hcs]
      · exfalso
        simp [FurbyConnect.connect, FurbyConnect.init, hcs] at hok
    | none =>
      cases hh : env.discovered.head? with
      | none =>
        exfalso
        simp [FurbyConnect.connect, FurbyConnect.init, hh] at hok
      | some d =>
        by_cases hcs : env.connectSucceeds 0
        · simp [FurbyConnect.connect, FurbyConnect.init, hh, hcs]
        · exfalso
          simp [FurbyConnect.connect, FurbyConnect.init, hh, hcs] at hok
  exact ⟨connect_already_connected env2 _ hchar.1, hchar.2, fun d => ⟨rfl, rfl⟩⟩

/-- C7 witness: a fresh session in an environment whose single transport
attempt succeeds. -/
theorem C7_lifecycle_idempotent_witness :
    (FurbyConnect.connect
        { discovered := [{ address := "A0:00:00:00:00:01" }],
          connectSucceeds := fun attempt => true, nextHandle := 1 }
        (FurbyConnect.init none)).outcome = .ok ()
    ∧ (FurbyConnect.connect
          { discovered := [{ address := "A0:00:00:00:00:01" }],
            connectSucceeds := fun attempt => true, nextHandle := 1 }
          (FurbyConnect.connect
            { discovered := [{ address := "A0:00:00:00:00:01" }],
              connectSucceeds := fun attempt => true, nextHandle := 1 }
            (FurbyConnect.init none)).state
        = { state := (FurbyConnect.connect
              { discovered := [{ address := "A0:00:00:00:00:01" }],
                connectSucceeds := fun attempt => true, nextHandle := 1 }
              (FurbyConnect.init none)).state,
            transportAttempts := 0, outcome := .ok () }
      ∧ (FurbyConnect.connect
            { discovered := [{ address := "A0:00:00:00:00:01" }],
              connectSucceeds := fun attempt => true, nextHandle := 1 }
            (FurbyConnect.init none)).state.client = some 1
      ∧ (∀ d : Option BLEDevice,
          FurbyConnect.disconnect (FurbyConnect.init d) = FurbyConnect.init d
            ∧ FurbyConnect.isConnected (FurbyConnect.init d) = false)) :=
  ⟨rfl, C7_lifecycle_idempotent
    { discovered := [{ address := "A0:00:00:00:00:01" }],
      connectSucceeds := fun attempt => true, nextHandle := 1 }
    { discovered := [{ address := "A0:00:00:00:00:01" }],
      connectSucceeds := fun attempt => true, nextHandle := 1 }
    none rfl⟩

/-- C1 (the code, evaluated): `FurbyConnect.connect` as implemented accepts
no `address` or `retries` parameter even though the repository's own callers
pass both, and in an environment where the first transport attempt fails but
a second would succeed it makes exactly one attempt and fails — it does not
retry. -/
theorem C1_connect_single_attempt_no_address :
    ("address" ∈ cli_connect_call_keywords ∧ "address" ∉ connect_keyword_params
      ∧ "retries" ∈ cli_connect_call_keywords ∧ "retries" ∉ connect_keyword_params)
    ∧ (FurbyConnect.connect
        { discovered := [{ address := "A0:00:00:00:00:01" }],
          connectSucceeds := fun attempt => attempt != 0, nextHandle := 1 }
        (FurbyConnect.init none)).transportAttempts = 1
    ∧ (FurbyConnect.connect
        { discovered := [{ address := "A0:00:00:00:00:01" }],
          connectSucceeds := fun attempt => attempt != 0, nextHandle := 1 }
        (FurbyConnect.init none)).outcome = .error "Failed to connect to Furby"
    ∧ (FurbyConnect.connect
        { discovered := ([] : List BLEDevice),
          connectSucceeds := fun attempt => true, nextHandle := 1 }
        (FurbyConnect.init none)).outcome = .error "No Furby devices found" := by
  refine ⟨⟨by decide, by decide, by decide, by decide⟩, rfl, rfl, rfl⟩

/-! ## Chunking lemmas for the DLC upload -/

theorem file_chunks_nil : file_chunks [] = [] := by
  unfold file_chunks
  simp

theorem file_chunks_cons (data : List Nat) (h : data ≠ []) :
    file_chunks data
      = data.take FILE_CHUNK_SIZE :: file_chunks (data.drop FILE_CHUNK_SIZE) := by
  rw [file_chunks]
  simp [h]

theorem file_chunks_spec (n : Nat) :
    ∀ data : List Nat, data.length ≤ n →
      (file_chunks data).flatten = data
      ∧ (file_chunks data).length = (data.length + 19) / 20
      ∧ ∀ c ∈ file_chunks data, c.length ≤ 20 := by
  induction n with
  | zero =>
    intro data hlen
    have hd : data = [] := List.length_eq_zero.mp (Nat.le_zero.mp hlen)
    subst hd
    simp [file_chunks_nil]
  | succ n ih =>
    intro data hlen
    by_cases hd : data = []
    · subst hd
      simp [file_chunks_nil]
    · have hpos : 0 < data.length := List.length_pos.mpr hd
      have hdrop : (data.drop FILE_CHUNK_SIZE).length ≤ n := by
        simp only [List.length_drop, FILE_CHUNK_SIZE]
        omega
      obtain ⟨ih1, ih2, ih3⟩ := ih (data.drop FILE_CHUNK_SIZE) hdrop
      rw [file_chunks_cons data hd]
      refine ⟨?_, ?_, ?_⟩
      · simp only [List.flatten_cons, ih1]
        exact List.take_append_drop _ data
      · simp only [List.length_drop, FILE_CHUNK_SIZE] at ih2
        simp only [List.length_cons, FILE_CHUNK_SIZE, ih2]
        omega
      · intro c hc
        rcases List.mem_cons.mp hc with hc | hc
        · subst hc
          simp only [List.length_take, FILE_CHUNK_SIZE]
          omega
        · exact ih3 c hc

/-- C3: when the notification channel delivers a ready-to-receive status
after the announcement and a received-ok status after the last chunk, the
upload completes successfully, writing exactly one announce packet on the
primary channel and `ceil(fileSize/20)` chunks on the file channel, each
chunk at most 20 bytes and the chunks concatenating to the file content in
order; with a received-error status instead it fails with the transfer-failed
error; with no status at all it fails with the announcement-timeout error;
and on every one of these exits the temporary file-transfer callback is
unregistered. -/
theorem C3_upload_dlc (dlc_data : List Nat) (slot : Nat) (filename : String)
    (callbacks : List Nat) (cbId : Nat) (hfresh : cbId ∉ callbacks) :
    ((upload_dlc dlc_data slot filename [[0x24, 0x02]] [[0x24, 0x05]] callbacks cbId).outcome
        = .ok ()
      ∧ (upload_dlc dlc_data slot filename [[0x24, 0x02]] [[0x24, 0x05]] callbacks cbId).gpWrites
        = [build_dlc_announce_command dlc_data.length slot filename]
      ∧ (upload_dlc dlc_data slot filename [[0x24, 0x02]] [[0x24, 0x05]] callbacks cbId).fileWrites.length
        = (dlc_data.length + 19) / 20
      ∧ (∀ c ∈ (upload_dlc dlc_data slot filename [[0x24, 0x02]] [[0x24, 0x05]] callbacks cbId).fileWrites,
          c.length ≤ 20)
      ∧ (upload_dlc dlc_data slot filename [[0x24, 0x02]] [[0x24, 0x05]] callbacks cbId).fileWrites.flatten
        = dlc_data
      ∧ (upload_dlc dlc_data slot filename [[0x24, 0x02]] [[0x24, 0x05]] callbacks cbId).finalCallbacks
        = callbacks)
    ∧ ((upload_dlc dlc_data slot filename [[0x24, 0x02]] [[0x24, 0x06]] callbacks cbId).outcome
        = .error "File transfer failed"
      ∧ (upload_dlc dlc_data slot filename [[0x24, 0x02]] [[0x24, 0x06]] callbacks cbId).finalCallbacks
        = callbacks)
    ∧ ((upload_dlc dlc_data slot filename [] [] callbacks cbId).outcome
        = .error "Furby did not respond to DLC upload announcement"
      ∧ (upload_dlc dlc_data slot filename [] [] callbacks cbId).finalCallbacks
        = callbacks) := by
  obtain ⟨hflat, hlen, hsize⟩ := file_chunks_spec dlc_data.length dlc_data le_rfl
  have herase := erase_fresh_callback callbacks cbId hfresh
  refine ⟨⟨?_, ?_, ?_, ?_, ?_, ?_⟩, ⟨?_, ?_⟩, ⟨?_, ?_⟩⟩ <;>
    simp [upload_dlc, file_transfer_callback, GeneralPlusResponse.FILE_TRANSFER_MODE,
      herase, hflat, hlen] <;>
    exact hsize

/-- C3 witness: a 21-byte file uploaded into slot 2 with the happy-path,
error-path and timeout-path notification transcripts. -/
theorem C3_upload_dlc_witness :
    (0 : Nat) ∉ ([] : List Nat)
    ∧ (((upload_dlc (List.replicate 21 0xAB) 2 "TEST.DLC" [[0x24, 0x02]] [[0x24, 0x05]] [] 0).outcome
        = .ok ()
      ∧ (upload_dlc (List.replicate 21 0xAB) 2 "TEST.DLC" [[0x24, 0x02]] [[0x24, 0x05]] [] 0).gpWrites
        = [build_dlc_announce_command (List.replicate 21 0xAB).length 2 "TEST.DLC"]
      ∧ (upload_dlc (List.replicate 21 0xAB) 2 "TEST.DLC" [[0x24, 0x02]] [[0x24, 0x05]] [] 0).fileWrites.length
        = ((List.replicate 21 0xAB).length + 19) / 20
      ∧ (∀ c ∈ (upload_dlc (List.replicate 21 0xAB) 2 "TEST.DLC" [[0x24, 0x02]] [[0x24, 0x05]] [] 0).fileWrites,
          c.length ≤ 20)
      ∧ (upload_dlc (List.replicate 21 0xAB) 2 "TEST.DLC" [[0x24, 0x02]] [[0x24, 0x05]] [] 0).fileWrites.flatten
        = List.replicate 21 0xAB
      ∧ (upload_dlc (List.replicate 21 0xAB) 2 "TEST.DLC" [[0x24, 0x02]] [[0x24, 0x05]] [] 0).finalCallbacks
        = [])
    ∧ ((upload_dlc (List.replicate 21 0xAB) 2 "TEST.DLC" [[0x24, 0x02]] [[0x24, 0x06]] [] 0).outcome
        = .error "File transfer failed"
      ∧ (upload_dlc (List.replicate 21 0xAB) 2 "TEST.DLC" [[0x24, 0x02]] [[0x24, 0x06]] [] 0).finalCallbacks
        = [])
    ∧ ((upload_dlc (List.replicate 21 0xAB) 2 "TEST.DLC" [] [] [] 0).outcome
        = .error "Furby did not respond to DLC upload announcement"
      ∧ (upload_dlc (List.replicate 21 0xAB) 2 "TEST.DLC" [] [] [] 0).finalCallbacks
        = [])) :=
  ⟨by simp, C3_upload_dlc (List.replicate 21 0xAB) 2 "TEST.DLC" [] 0 (by simp)⟩
